import Mathlib

/-!
Verification development for the Denon AVR Stream Deck plugin
(`src/modules/connection.js` and `src/modules/tracker.js`).

The JavaScript modules are shallowly embedded below: every state-carrying
object becomes a Lean structure, every handler becomes a pure function from
the old state (plus the event payload) to the new state together with the
list of emitted events or the written command string.  JavaScript numbers
that appear in this program are always either rationals (volumes carry at
most one decimal digit) or `NaN`/`undefined`; they are modelled by `JSNum`.

Because `Rat.add`, `Rat.mul` and friends are `@[irreducible]`, the embedding
computes with kernel-reducible primitives (`Rat.divInt`, integer arithmetic,
`min`/`max`, `Int.floor`) and bridge lemmas relate them to the ordinary
field operations used in the theorem statements.
-/

/-- A JavaScript number as it occurs in this program: a rational value,
`NaN` (the result of a failed `parseInt`), or `undefined` (a missing
property).  The zone-status fields are initialised with numbers, so
`undef` is only reachable through explicitly absent arguments. -/
inductive JSNum where
  | num (q : ℚ)
  | nan
  | undef
deriving DecidableEq, Repr

/-- Kernel-reducible addition on `ℚ` (used instead of the irreducible
`Rat.add`). -/
def qAdd (a b : ℚ) : ℚ :=
  Rat.divInt (a.num * (b.den : ℤ) + b.num * (a.den : ℤ)) ((a.den : ℤ) * (b.den : ℤ))

/-- Kernel-reducible division by ten on `ℚ`. -/
def qDivTen (a : ℚ) : ℚ :=
  Rat.divInt a.num (10 * (a.den : ℤ))

theorem qAdd_eq (a b : ℚ) : qAdd a b = a + b := by
  have ha : (a.den : ℚ) ≠ 0 := Nat.cast_ne_zero.mpr a.den_ne_zero
  have hb : (b.den : ℚ) ≠ 0 := Nat.cast_ne_zero.mpr b.den_ne_zero
  rw [qAdd, Rat.divInt_eq_div]
  push_cast
  conv_rhs => rw [← Rat.num_div_den a, ← Rat.num_div_den b]
  rw [div_add_div _ _ ha hb]
  ring_nf

theorem qDivTen_eq (a : ℚ) : qDivTen a = a / 10 := by
  rw [qDivTen, Rat.divInt_eq_div]
  push_cast
  conv_rhs => rw [← Rat.num_div_den a]
  rw [div_div]
  ring_nf

/-- `Math.round` on a rational: round half toward positive infinity. -/
def jsRoundQ (q : ℚ) : ℤ :=
  ⌊qAdd q (Rat.divInt 1 2)⌋

theorem jsRoundQ_eq (q : ℚ) : jsRoundQ q = ⌊q + 1 / 2⌋ := by
  rw [jsRoundQ, qAdd_eq]
  norm_num [Rat.divInt_eq_div]

/-- `Math.round` (`NaN` and `undefined` round to `NaN`). -/
def jsRound : JSNum → JSNum
  | .num q => .num (jsRoundQ q)
  | _ => .nan

/-- `Math.min` (`NaN` contaminates). -/
def jsMin : JSNum → JSNum → JSNum
  | .num a, .num b => .num (min a b)
  | _, _ => .nan

/-- `Math.max` (`NaN` contaminates). -/
def jsMax : JSNum → JSNum → JSNum
  | .num a, .num b => .num (max a b)
  | _, _ => .nan

/-- Addition of JavaScript numbers. -/
def jsAdd : JSNum → JSNum → JSNum
  | .num a, .num b => .num (qAdd a b)
  | _, _ => .nan

/-- Division by ten of a JavaScript number (`newMaxVolume / 10`). -/
def jsDivTen : JSNum → JSNum
  | .num a => .num (qDivTen a)
  | _ => .nan

/-- Decimal digits of a character run. -/
def digitsToNat (l : List Char) : ℕ :=
  l.foldl (fun a c => a * 10 + (c.toNat - 48)) 0

/-- The characters JavaScript `parseInt` skips before the number: the
WhiteSpace set (tab, VT, FF, space, NBSP, BOM, the Unicode space
separators) and the LineTerminator set (LF, CR, LS, PS). -/
def jsWhitespaceChars : List Char :=
  [' ', '\t', '\n', '\r', '\x0b', '\x0c',
   '\u00A0', '\u1680', '\u2000', '\u2001', '\u2002', '\u2003', '\u2004',
   '\u2005', '\u2006', '\u2007', '\u2008', '\u2009', '\u200A',
   '\u2028', '\u2029', '\u202F', '\u205F', '\u3000', '\uFEFF']

/-- Whitespace as recognised by JavaScript `parseInt`. -/
def jsWhitespace (c : Char) : Bool :=
  jsWhitespaceChars.contains c

/-- Hexadecimal digits accepted after a `0x`/`0X` prefix. -/
def isHexDigitChar (c : Char) : Bool :=
  c.isDigit || ('a' ≤ c && c ≤ 'f') || ('A' ≤ c && c ≤ 'F')

/-- Value of one hexadecimal digit. -/
def hexDigitVal (c : Char) : ℕ :=
  if c.isDigit then c.toNat - 48
  else if 'a' ≤ c && c ≤ 'f' then c.toNat - 87
  else c.toNat - 55

/-- Value of a hexadecimal digit run. -/
def hexDigitsToNat (l : List Char) : ℕ :=
  l.foldl (fun a c => a * 16 + hexDigitVal c) 0

/-- The unsigned part of JavaScript `parseInt` with no radix argument: a
`0x`/`0X` prefix switches to hexadecimal, otherwise a maximal run of
decimal digits is read; no digit at all yields `NaN` (`none`). -/
def parseUnsignedJS (l : List Char) : Option ℕ :=
  let hex :=
    match l with
    | a :: b :: _ => a = '0' && (b = 'x' || b = 'X')
    | _ => false
  if hex then
    let d := (l.drop 2).takeWhile isHexDigitChar
    if d.isEmpty then none else some (hexDigitsToNat d)
  else
    let d := l.takeWhile Char.isDigit
    if d.isEmpty then none else some (digitsToNat d)

/-- JavaScript `parseInt` with no radix argument: skip leading whitespace,
an optional sign, then the unsigned part. -/
def jsParseInt (s : String) : Option ℤ :=
  match s.data.dropWhile jsWhitespace with
  | [] => none
  | c :: rest =>
      if c = '-' then (parseUnsignedJS rest).map (fun n => -(n : ℤ))
      else if c = '+' then (parseUnsignedJS rest).map (fun n => (n : ℤ))
      else (parseUnsignedJS (c :: rest)).map (fun n => (n : ℤ))

/-- `parseInt` as a JavaScript number (`NaN` on failure). -/
def jsParseIntNum (s : String) : JSNum :=
  match jsParseInt s with
  | some n => .num (n : ℚ)
  | none => .nan

/-- `parseInt(s) > 0` as evaluated by JavaScript (`NaN > 0` is false). -/
def jsParseIntPos (s : String) : Bool :=
  match jsParseInt s with
  | some n => decide (0 < n)
  | none => false

/-- JavaScript `String.prototype.substring(n)`. -/
def strDrop (s : String) (n : ℕ) : String :=
  ⟨s.data.drop n⟩

/-- JavaScript `String.prototype.substring(0, n)`. -/
def strTake (s : String) (n : ℕ) : String :=
  ⟨s.data.take n⟩

/-- JavaScript `String.prototype.startsWith`. -/
def strStartsWith (s p : String) : Bool :=
  decide (s.data.take p.data.length = p.data)

/-- JavaScript `String.prototype.length`. -/
def strLen (s : String) : ℕ :=
  s.data.length

/-- JavaScript `String.prototype.padStart(2, "0")`. -/
def padStart2 (s : String) : String :=
  if 2 ≤ s.data.length then s else ⟨List.replicate (2 - s.data.length) '0' ++ s.data⟩

/-- JavaScript `Number.prototype.toString` for the values reachable in this
program (rationals whose denominator divides 10, hence at most one decimal
digit), plus the `NaN`/`undefined` renderings. -/
def ratToStr (q : ℚ) : String :=
  let sign := if q.num < 0 then "-" else ""
  let na := q.num.natAbs
  let ip := na / q.den
  let fr := na % q.den
  sign ++ Nat.repr ip ++ (if fr = 0 then "" else "." ++ Nat.repr (fr * 10 / q.den))

/-- Stringification of a JavaScript number. -/
def jsNumToStr : JSNum → String
  | .num q => ratToStr q
  | .nan => "NaN"
  | .undef => "undefined"

example : (jsParseInt ("355") = some 355) := by decide

example : (jsParseIntNum ("45") = JSNum.num 45) := by decide

example : (ratToStr (Rat.divInt 855 10) = ("85.5")) := by decide

example : (padStart2 (ratToStr 7) = ("07")) := by decide

example : (jsRoundQ (Rat.divInt 71 2) = 36) := by decide

/-- The fixed source vocabulary: the keys of the `sources` map in
`connection.js` (the map's values are display labels and never drive
parsing, so only the keys are modelled). -/
def sourceKeys : List String :=
  ["PHONO", "CD", "TUNER", "DVD", "BD", "TV", "SAT/CBL", "MPLAY", "GAME",
   "HDRADIO", "NET", "PANDORA", "SIRIUSXM", "SPOTIFY", "LASTFM", "FLICKR",
   "IRADIO", "SERVER", "FAVORITES", "AUX", "AUX1", "AUX2", "AUX3", "AUX4",
   "AUX5", "AUX6", "AUX7", "BT", "USB/IPOD", "USB", "IPD", "IRP", "FVP",
   "ON", "OFF"]

/-- The property names every object literal inherits from
`Object.prototype` in Node.js.  The JavaScript `in` operator walks the
prototype chain, so `line in sources` is also true for each of these. -/
def objectProtoKeys : List String :=
  ["constructor", "hasOwnProperty", "isPrototypeOf", "propertyIsEnumerable",
   "toLocaleString", "toString", "valueOf", "__proto__", "__defineGetter__",
   "__defineSetter__", "__lookupGetter__", "__lookupSetter__"]

/-- The test `line in sources` from `connection.js`: true for the map's
own keys and for every property inherited from `Object.prototype`. -/
def jsInSources (line : String) : Bool :=
  sourceKeys.contains line || objectProtoKeys.contains line

/-- Per-zone receiver status (`ReceiverZoneStatus` in `connection.js`).
`dynamicVolume` is an optional property: `none` models the absent
(`undefined`) property of zone 1. -/
structure ZoneStatus where
  power : Bool
  volume : JSNum
  maxVolume : JSNum
  muted : Bool
  dynamicVolume : Option String
  source : String
deriving DecidableEq, Repr

/-- Whole-receiver status (`this.status` in `connection.js`): the two zone
records plus the status message. -/
structure ReceiverStatus where
  zone0 : ZoneStatus
  zone1 : ZoneStatus
  statusMsg : String
deriving DecidableEq, Repr

/-- The initialiser of `this.status.zones[0]`. -/
def initialZone0 : ZoneStatus :=
  { power := false, volume := .num 0, maxVolume := .num 85, muted := false,
    dynamicVolume := some ("OFF"), source := "" }

/-- The initialiser of `this.status.zones[1]` (no `dynamicVolume` field). -/
def initialZone1 : ZoneStatus :=
  { power := false, volume := .num 0, maxVolume := .num 85, muted := false,
    dynamicVolume := none, source := "" }

/-- The initialiser of `this.status`. -/
def initialStatus : ReceiverStatus :=
  { zone0 := initialZone0, zone1 := initialZone1, statusMsg := "Initializing..." }

/-- `this.status.zones[zone]` for the zone indices that occur (0 and 1). -/
def getZone (st : ReceiverStatus) (zone : ℕ) : ZoneStatus :=
  if zone = 0 then st.zone0 else st.zone1

/-- Writing back `this.status.zones[zone]`. -/
def setZone (st : ReceiverStatus) (zone : ℕ) (z : ZoneStatus) : ReceiverStatus :=
  if zone = 0 then { st with zone0 := z } else { st with zone1 := z }

/-- The typed events emitted through `this.emit` (the `zone` argument
defaults to 0 in the source, so zone-less emissions carry 0 here). -/
inductive REvent where
  | connected
  | closed
  | powerChanged (zone : ℕ)
  | volumeChanged (zone : ℕ)
  | muteChanged (zone : ℕ)
  | sourceChanged (zone : ℕ)
  | dynamicVolumeChanged (zone : ℕ)
  | statusEvent (zone : ℕ)
deriving DecidableEq, Repr

/-- `AVRConnection.#onPowerChanged`: decode `"ON"`/anything-else, suppress
the event when the value is unchanged (the receiver re-announces power on a
heartbeat-like cadence). -/
def onPowerChanged (parameter : String) (zone : ℕ) (st : ReceiverStatus) :
    ReceiverStatus × List REvent :=
  let status := getZone st zone
  let newStatus := parameter == ("ON")
  if newStatus == status.power then (st, [])
  else (setZone st zone { status with power := newStatus }, [REvent.powerChanged zone])

/-- `AVRConnection.#onVolumeChanged`: the `MAX` sub-form updates
`maxVolume` (no event is emitted for it in the source); a plain numeric
parameter updates `volume`, clears `muted`, and emits `volumeChanged`.  A
three-character parameter is divided by ten. -/
def onVolumeChanged (parameter : String) (zone : ℕ) (st : ReceiverStatus) :
    ReceiverStatus × List REvent :=
  let status := getZone st zone
  if strStartsWith parameter ("MAX") then
    let valueStr := strDrop parameter 4
    let parsed := jsParseIntNum valueStr
    let newMaxVolume := if strLen valueStr = 3 then jsDivTen parsed else parsed
    (setZone st zone { status with maxVolume := newMaxVolume }, [])
  else
    let parsed := jsParseIntNum parameter
    let newVolume := if strLen parameter = 3 then jsDivTen parsed else parsed
    (setZone st zone { status with volume := newVolume, muted := false },
     [REvent.volumeChanged zone])

/-- `AVRConnection.#onMuteChanged`: always updates and always emits. -/
def onMuteChanged (parameter : String) (zone : ℕ) (st : ReceiverStatus) :
    ReceiverStatus × List REvent :=
  let status := getZone st zone
  (setZone st zone { status with muted := parameter == ("ON") },
   [REvent.muteChanged zone])

/-- `AVRConnection.#onSourceChanged`: always updates and always emits. -/
def onSourceChanged (parameter : String) (zone : ℕ) (st : ReceiverStatus) :
    ReceiverStatus × List REvent :=
  let status := getZone st zone
  (setZone st zone { status with source := parameter },
   [REvent.sourceChanged zone])

/-- `AVRConnection.#onDynamicVolumeChanged`: invalid values are logged and
dropped; valid ones update zone 0 and emit. -/
def onDynamicVolumeChanged (parameter : String) (st : ReceiverStatus) :
    ReceiverStatus × List REvent :=
  if (["HEV", "MED", "LIT", "OFF"] : List String).contains parameter then
    (setZone st 0 { getZone st 0 with dynamicVolume := some parameter },
     [REvent.dynamicVolumeChanged 0])
  else (st, [])

/-- The classification of one CR-terminated line performed at the top of
`AVRConnection.#onData`: command code, parameter and zone index. -/
structure ParsedLine where
  command : String
  parameter : String
  zone : ℕ
deriving DecidableEq, Repr

/-- Line classification from `AVRConnection.#onData`: a literal `Z2` head
routes to zone 1 and is stripped, after which volume/power/source are
sniffed before falling back to the two-letter command code; a `PS` head is
space-delimited; everything else is a two-letter code plus parameter. -/
def parseLine (line0 : String) : ParsedLine :=
  if strStartsWith line0 ("Z2") then
    let line := strDrop line0 2
    if jsParseIntPos (strTake line 2) then
      { command := "MV", parameter := strDrop line 2, zone := 1 }
    else if strStartsWith line ("ON") || strStartsWith line ("OFF") then
      { command := "PW", parameter := line, zone := 1 }
    else if jsInSources line then
      { command := "SI", parameter := line, zone := 1 }
    else
      { command := strTake line 2, parameter := strDrop line 2, zone := 1 }
  else if strStartsWith line0 ("PS") then
    let line := strDrop line0 2
    let parts := (List.splitOn ' ' line.data).map (fun l => (⟨l⟩ : String))
    { command := parts.headD "", parameter := (parts.get? 1).getD "", zone := 0 }
  else
    { command := strTake line0 2, parameter := strDrop line0 2, zone := 0 }

/-- The `switch (command)` dispatch of `AVRConnection.#onData`; unhandled
codes are logged and ignored. -/
def dispatchLine (st : ReceiverStatus) (line : String) : ReceiverStatus × List REvent :=
  let p := parseLine line
  match p.command with
  | "PW" => onPowerChanged p.parameter p.zone st
  | "MV" => onVolumeChanged p.parameter p.zone st
  | "MU" => onMuteChanged p.parameter p.zone st
  | "SI" => onSourceChanged p.parameter p.zone st
  | "DYNVOL" => onDynamicVolumeChanged p.parameter st
  | _ => (st, [])

/-- `AVRConnection.#onData`: split the chunk on carriage returns, skip
empty lines, dispatch the rest in arrival order, collecting the emitted
events. -/
def onData (st : ReceiverStatus) (data : String) : ReceiverStatus × List REvent :=
  (List.splitOn '\r' data.data).foldl
    (fun acc l =>
      if l.length = 0 then acc
      else
        let r := dispatchLine acc.1 (⟨l⟩ : String)
        (r.1, acc.2 ++ r.2))
    (st, [])

/-- The per-zone command head `["MV", "Z2"][zone]`. -/
def volHead (zone : ℕ) : String :=
  if zone = 0 then "MV" else "Z2"

/-- The per-zone command head `["MU", "Z2MU"][zone]`. -/
def muteHead (zone : ℕ) : String :=
  if zone = 0 then "MU" else "Z2MU"

/-- The per-zone command head `["PW", "Z2"][zone]`. -/
def powHead (zone : ℕ) : String :=
  if zone = 0 then "PW" else "Z2"

/-- The per-zone power-off token `["STANDBY", "OFF"][zone]`. -/
def standbyToken (zone : ℕ) : String :=
  if zone = 0 then "STANDBY" else "OFF"

/-- `AVRConnection.changeVolume`: `none` models a `false` return (no
command written), `some c` models a `true` return after writing `c`. -/
def changeVolume (telnet : Bool) (delta : ℚ) (zone : ℕ) (st : ReceiverStatus) :
    Option String :=
  let status := getZone st zone
  if !telnet || !status.power || status.volume == JSNum.undef then none
  else
    let command := volHead zone
    let command :=
      if delta = 1 then command ++ "UP"
      else if delta = -1 then command ++ "DOWN"
      else
        let newVolumeStr :=
          padStart2 (jsNumToStr
            (jsMax (JSNum.num 0)
              (jsMin status.maxVolume
                (jsRound (jsAdd status.volume (JSNum.num delta))))))
        command ++ newVolumeStr
    some (command ++ "\r")

/-- `AVRConnection.changeVolumeAbsolute`: rejected without an open socket
or with the zone powered off; otherwise the value is encoded two-digit
zero-padded with no clamping. -/
def changeVolumeAbsolute (telnet : Bool) (value : ℚ) (zone : ℕ) (st : ReceiverStatus) :
    Option String :=
  let status := getZone st zone
  if !telnet || !status.power then none
  else some (volHead zone ++ padStart2 (ratToStr value) ++ "\r")

/-- `AVRConnection.setMute`: with no explicit value the target is the
negation of the currently held `muted` flag. -/
def setMute (telnet : Bool) (value : Option Bool) (zone : ℕ) (st : ReceiverStatus) :
    Option String :=
  let status := getZone st zone
  if !telnet || !status.power then none
  else
    let v := value.getD (!status.muted)
    some (muteHead zone ++ (if v then "ON" else "OFF") ++ "\r")

/-- `AVRConnection.setPower`: with no explicit value the target is the
negation of the currently held `power` flag. -/
def setPower (telnet : Bool) (value : Option Bool) (zone : ℕ) (st : ReceiverStatus) :
    Option String :=
  let status := getZone st zone
  if !telnet then none
  else
    let v := value.getD (!status.power)
    some (powHead zone ++ (if v then "ON" else standbyToken zone) ++ "\r")

example : ((onData initialStatus ("PWON\rMV45\rMUOFF\r")).2 =
    [REvent.powerChanged 0, REvent.volumeChanged 0, REvent.muteChanged 0]) := by decide

example : ((getZone (onData initialStatus ("PWON\rMV45\rMUOFF\r")).1 0).volume =
    JSNum.num 45) := by decide

example : (parseLine ("Z2MUON") = { command := "MU", parameter := "ON", zone := 1 }) := by
  decide

example : (parseLine ("Z245") = { command := "MV", parameter := "", zone := 1 }) := by
  decide

example : (parseLine ("PSDYNVOL MED") =
    { command := "DYNVOL", parameter := "MED", zone := 0 }) := by decide

/-- Connection lifecycle state (`AVRConnection` private fields relevant to
reconnection): whether the sockets are assigned (`#telnet`), the consecutive
reconnect counter (`#reconnectCount`), the status message, and the number of
reconnect timers that have been scheduled by `#onClose` but have not fired
yet.  The source keeps no handle on those timers, so nothing ever cancels
them. -/
structure ConnState where
  telnet : Bool
  reconnectCount : ℕ
  statusMsg : String
  pendingReconnect : ℕ
deriving DecidableEq, Repr

/-- The fixed delay passed to `setTimeout` by `#onClose`, in milliseconds. -/
def reconnectDelayMs : ℕ := 1000

/-- `connect()`: creates the sockets and assigns them to the instance. -/
def connectStep (s : ConnState) : ConnState :=
  { s with telnet := true }

/-- The state right after the constructor ran `connect()`. -/
def initialConn : ConnState :=
  { telnet := true, reconnectCount := 0, statusMsg := "Initializing...",
    pendingReconnect := 0 }

/-- `#onConnect`: reset the retry counter and the status message. -/
def onConnectStep (s : ConnState) : ConnState :=
  { s with reconnectCount := 0, statusMsg := "Connected." }

/-- `disconnect()`: drops the socket references.  The pending reconnect
timer, if any, is not cancelled (the source keeps no handle on it). -/
def disconnectStep (s : ConnState) : ConnState :=
  { s with telnet := false }

/-- `#onClose`: when the sockets are still assigned and fewer than 10
consecutive retries have happened, increment the counter and schedule a
reconnect after `reconnectDelayMs`; the second component is the scheduled
delay (`none` when no retry is scheduled). -/
def onCloseStep (s : ConnState) : ConnState × Option ℕ :=
  if s.telnet && decide (s.reconnectCount < 10) then
    ({ s with reconnectCount := s.reconnectCount + 1,
              pendingReconnect := s.pendingReconnect + 1 }, some reconnectDelayMs)
  else (s, none)

/-- `#onError`: a name-resolution failure records a terminal message and
tears the connection down; any other error only records the message. -/
def onErrorStep (code msg host : String) (s : ConnState) : ConnState :=
  if code = "ENOTFOUND" then
    disconnectStep { s with statusMsg := "Host not found: " ++ host }
  else
    { s with statusMsg := "Connection error: " ++ msg ++ " (" ++ code ++ ")" }

/-- A scheduled reconnect timer fires: the callback unconditionally calls
`connect()` (the source performs no check before reconnecting). -/
def fireReconnectTimer (s : ConnState) : ConnState :=
  if 0 < s.pendingReconnect then
    connectStep { s with pendingReconnect := s.pendingReconnect - 1 }
  else s

/-- One failed connection attempt as observed on the wire: any pending
reconnect timer fires and `connect()` runs, the attempt raises a socket
error, and the socket then closes. -/
def failCycle (code msg host : String) (s : ConnState) : ConnState × Option ℕ :=
  onCloseStep (onErrorStep code msg host (connectStep (fireReconnectTimer s)))

/-- The trace of repeated connection failures starting from the
constructor's first attempt; the `Option ℕ` is the retry delay scheduled by
the latest close. -/
def failTrace (code msg host : String) : ℕ → ConnState × Option ℕ
  | 0 => failCycle code msg host initialConn
  | n + 1 => failCycle code msg host (failTrace code msg host n).1

/-- The status message recorded by `#onError` for a non-resolution error. -/
def connErrMsg (code msg : String) : String :=
  "Connection error: " ++ msg ++ " (" ++ code ++ ")"

theorem failTrace_spec (code msg host : String) (h : code ≠ "ENOTFOUND") (n : ℕ) :
    failTrace code msg host n =
      ({ telnet := true, reconnectCount := min (n + 1) 10,
         statusMsg := connErrMsg code msg,
         pendingReconnect := if n < 10 then 1 else 0 },
       if n < 10 then some reconnectDelayMs else none) := by
  induction n with
  | zero =>
      simp [failTrace, failCycle, onCloseStep, onErrorStep, connectStep,
            fireReconnectTimer, initialConn, connErrMsg, disconnectStep, h]
  | succ n ih =>
      rw [failTrace, ih]
      by_cases hn : n < 10
      · have hmin : min (n + 1) 10 = n + 1 := by omega
        by_cases hn9 : n + 1 < 10
        · have hmin2 : min (n + 1 + 1) 10 = n + 1 + 1 := by omega
          simp [failCycle, onCloseStep, onErrorStep, connectStep,
                fireReconnectTimer, connErrMsg, disconnectStep, h, hn, hn9,
                hmin, hmin2]
        · have hmin2 : min (n + 1 + 1) 10 = 10 := by omega
          have h10 : n + 1 = 10 := by omega
          simp [failCycle, onCloseStep, onErrorStep, connectStep,
                fireReconnectTimer, connErrMsg, disconnectStep, h, hn, hn9,
                hmin, hmin2, h10]
      · have hmin : min (n + 1) 10 = 10 := by omega
        have hmin2 : min (n + 1 + 1) 10 = 10 := by omega
        have hn9 : ¬ n + 1 < 10 := by omega
        simp [failCycle, onCloseStep, onErrorStep, connectStep,
              fireReconnectTimer, connErrMsg, disconnectStep, h, hn, hn9,
              hmin, hmin2]

/-- An entry of the tracker's `receiverList` (`ReceiverInfo` in
`tracker.js`): `descriptionURL` and `name` are optional properties. -/
structure ReceiverInfo where
  currentIP : String
  lastSeen : ℕ
  descriptionURL : Option String
  name : Option String
deriving DecidableEq, Repr

/-- The tracker cache `receiverList`, a record keyed by UUID; JavaScript
object keys are unique, so the association list below never holds two
entries with the same key when built through `setEntry`. -/
abbrev ReceiverList : Type := List (String × ReceiverInfo)

/-- Property read `receiverList[uuid]`. -/
def getEntry (l : ReceiverList) (k : String) : Option ReceiverInfo :=
  ((List.find? (fun p => p.1 == k) l).map (fun p => p.2))

/-- Property write `receiverList[uuid] = v`: replace in place when the key
exists, append otherwise. -/
def setEntry (l : ReceiverList) (k : String) (v : ReceiverInfo) : ReceiverList :=
  if List.any l (fun p => p.1 == k) then
    List.map (fun p => if p.1 == k then (k, v) else p) l
  else l ++ [(k, v)]

/-- Header lookup on a parsed SSDP response (`headers.USN`,
`headers.LOCATION`). -/
def getHeader (headers : List (String × String)) (k : String) : Option String :=
  ((List.find? (fun p => p.1 == k) headers).map (fun p => p.2))

/-- JavaScript `||`-coercion used in `headers.LOCATION || undefined`: an
empty string is falsy and becomes `undefined`. -/
def jsOrUndef : Option String → Option String
  | some s => if s = "" then none else some s
  | none => none

/-- Fuel-driven splitter implementing JavaScript `String.prototype.split`
with a (non-empty) string separator; the fuel is an upper bound on the
number of consumed characters, so `length + 1` always suffices. -/
def splitOnListAux (sep : List Char) : ℕ → List Char → List Char → List (List Char)
  | 0, input, acc => [acc.reverse ++ input]
  | fuel + 1, input, acc =>
    match input with
    | [] => [acc.reverse]
    | c :: cs =>
      if List.isPrefixOf sep input then
        acc.reverse :: splitOnListAux sep fuel (input.drop sep.length) []
      else splitOnListAux sep fuel cs (c :: acc)

/-- JavaScript `String.prototype.split` with a string separator. -/
def jsSplit (s sep : String) : List String :=
  (splitOnListAux sep.data (s.data.length + 1) s.data []).map
    (fun l => (⟨l⟩ : String))

/-- The UUID extraction of `tracker.js` `onResponse`:
`usn.split("::")[0].split("uuid:")[1]`, with the JavaScript falsiness check
`if (!uuid)` rejecting both a missing piece and an empty string. -/
def extractUUID (usn : String) : Option String :=
  let first := (jsSplit usn ("::")).headD ""
  match List.get? (jsSplit first ("uuid:")) 1 with
  | none => none
  | some u => if u = "" then none else some u

/-- A parsed SSDP response: the header block plus the sender address
(`rinfo.address`). -/
structure SSDPResponse where
  headers : List (String × String)
  address : String
deriving DecidableEq, Repr

/-- `tracker.js` `onResponse`: drop responses without a usable USN; build a
fresh entry (note: the object literal carries no `name`), store it under
the UUID, and start a friendly-name fetch when the fresh entry has a
description URL and no name.  The second component records whether the
fetch was started. -/
def onResponse (resp : SSDPResponse) (now : ℕ) (list : ReceiverList) :
    ReceiverList × Bool :=
  match getHeader resp.headers ("USN") with
  | none => (list, false)
  | some usn =>
    match extractUUID usn with
    | none => (list, false)
    | some uuid =>
      let receiver : ReceiverInfo :=
        { currentIP := resp.address,
          descriptionURL := jsOrUndef (getHeader resp.headers ("LOCATION")),
          lastSeen := now,
          name := none }
      let list := setEntry list uuid receiver
      if receiver.descriptionURL.isSome && receiver.name.isNone then
        (list, true)
      else (list, false)

/-- The possible outcomes of the friendly-name fetch performed by
`updateNameFromDescriptionURL`: a failed fetch, a description document
with a `friendlyName` element, or one without. -/
inductive FetchOutcome where
  | fetchFail
  | docWithName (n : String)
  | docNoName
deriving DecidableEq, Repr

/-- `tracker.js` `updateNameFromDescriptionURL`, with the network outcome
passed in: a failed fetch or a nameless document drops the description URL;
a found `friendlyName` is stored. -/
def updateNameFromDescriptionURL (outcome : FetchOutcome) (receiverID : String)
    (list : ReceiverList) : ReceiverList :=
  match getEntry list receiverID with
  | none => list
  | some r =>
    if r.descriptionURL.isNone then list
    else
      match outcome with
      | .fetchFail => setEntry list receiverID { r with descriptionURL := none }
      | .docWithName n => setEntry list receiverID { r with name := some n }
      | .docNoName => setEntry list receiverID { r with descriptionURL := none }

/-- One entry of `os.networkInterfaces()`: the scan only uses non-internal
IPv4 addresses. -/
structure NetAddress where
  address : String
  family4 : Bool
  internal : Bool
deriving DecidableEq, Repr

/-- The number of interfaces a broadcast round actually sends on. -/
def usableIfaceCount (ifaces : List NetAddress) : ℕ :=
  (ifaces.filter (fun a => a.family4 && !a.internal)).length

/-- Tracker module state: the `isScanning` single-flight flag, the cache,
and a counter of multicast datagrams sent (for the send-count property). -/
structure TrackerState where
  isScanning : Bool
  receiverList : ReceiverList
  sendCount : ℕ
deriving DecidableEq, Repr

/-- Responses arriving during a wait window are fed to `onResponse` in
arrival order (the started fetches do not touch the cache themselves). -/
def applyResponses (resps : List (SSDPResponse × ℕ)) (s : TrackerState) : TrackerState :=
  resps.foldl
    (fun st r => { st with receiverList := (onResponse r.1 r.2 st.receiverList).1 }) s

/-- One round of the broadcast-and-wait loop in `searchForReceivers`: send
the search message once on every usable interface, then collect the
responses of the wait window. -/
def scanRound (ifaces : List NetAddress) (resps : List (SSDPResponse × ℕ))
    (s : TrackerState) : TrackerState :=
  applyResponses resps { s with sendCount := s.sendCount + usableIfaceCount ifaces }

/-- The whole broadcast-and-wait loop (`for i = 1..count`). -/
def runScanRounds (ifaces : List NetAddress)
    (rounds : List (List (SSDPResponse × ℕ))) (s : TrackerState) : TrackerState :=
  rounds.foldl (fun st rs => scanRound ifaces rs st) s

/-- The not-yet-scanning path of `searchForReceivers`: set `isScanning`,
run the loop, clear `isScanning`, emit `"scanned"` and return the cache. -/
def searchScan (ifaces : List NetAddress) (rounds : List (List (SSDPResponse × ℕ)))
    (s0 : TrackerState) : TrackerState × ReceiverList :=
  let s := runScanRounds ifaces rounds { s0 with isScanning := true }
  let s := { s with isScanning := false }
  (s, s.receiverList)

/-- The module state observed by a second caller that arrives after `j`
completed rounds of an in-flight scan. -/
def midScanState (ifaces : List NetAddress) (rounds : List (List (SSDPResponse × ℕ)))
    (j : ℕ) (s0 : TrackerState) : TrackerState :=
  runScanRounds ifaces (rounds.take j) { s0 with isScanning := true }

/-- The guard at the top of `searchForReceivers`: a truthy `isScanning`
takes the wait-for-"scanned" branch, which performs no sends and no cache
mutation and returns `receiverList` once the signal fires. -/
def searchJoins (s : TrackerState) : Bool :=
  s.isScanning

/-- Two overlapping `searchForReceivers` calls: caller A starts the scan
from `s0`; caller B arrives after `j` rounds.  The result is (A's returned
list, B's returned list, final module state).  The else-branch — B starting
a second scan of its own — is what the code would do if the guard were
ever false mid-flight. -/
def overlappedSearch (ifaces : List NetAddress)
    (rounds : List (List (SSDPResponse × ℕ))) (j : ℕ) (s0 : TrackerState) :
    ReceiverList × ReceiverList × TrackerState :=
  if searchJoins (midScanState ifaces rounds j s0) then
    let r := searchScan ifaces rounds s0
    (r.2, r.1.receiverList, r.1)
  else
    let r := searchScan ifaces rounds s0
    let r2 := searchScan ifaces rounds r.1
    (r.2, r2.2, r2.1)

theorem applyResponses_isScanning (resps : List (SSDPResponse × ℕ)) (s : TrackerState) :
    (applyResponses resps s).isScanning = s.isScanning := by
  induction resps generalizing s with
  | nil => rfl
  | cons r rs ih => simp [applyResponses, List.foldl_cons] at ih ⊢; exact ih _

theorem applyResponses_sendCount (resps : List (SSDPResponse × ℕ)) (s : TrackerState) :
    (applyResponses resps s).sendCount = s.sendCount := by
  induction resps generalizing s with
  | nil => rfl
  | cons r rs ih => simp [applyResponses, List.foldl_cons] at ih ⊢; exact ih _

theorem runScanRounds_isScanning (ifaces : List NetAddress)
    (rounds : List (List (SSDPResponse × ℕ))) (s : TrackerState) :
    (runScanRounds ifaces rounds s).isScanning = s.isScanning := by
  induction rounds generalizing s with
  | nil => rfl
  | cons r rs ih =>
      simp only [runScanRounds, List.foldl_cons] at ih ⊢
      rw [ih]
      simp [scanRound, applyResponses_isScanning]

theorem runScanRounds_sendCount (ifaces : List NetAddress)
    (rounds : List (List (SSDPResponse × ℕ))) (s : TrackerState) :
    (runScanRounds ifaces rounds s).sendCount =
      s.sendCount + rounds.length * usableIfaceCount ifaces := by
  induction rounds generalizing s with
  | nil => simp [runScanRounds]
  | cons r rs ih =>
      simp only [runScanRounds, List.foldl_cons] at ih ⊢
      rw [ih]
      simp [scanRound, applyResponses_sendCount, List.length_cons]
      ring

theorem strData_append (s t : String) : (s ++ t).data = s.data ++ t.data := rfl

theorem strMk_data (s : String) : (⟨s.data⟩ : String) = s := rfl

theorem takeWhile_all {p : Char → Bool} (l : List Char) (h : l.all p = true) :
    l.takeWhile p = l := by
  induction l with
  | nil => rfl
  | cons c cs ih =>
      simp only [List.all_cons, Bool.and_eq_true] at h
      simp [List.takeWhile_cons, h.1, ih h.2]

theorem jsWhitespace_of_digit (c : Char) (h : c.isDigit = true) :
    jsWhitespace c = false := by
  cases hw : jsWhitespace c
  · rfl
  · exfalso
    have hm : c ∈ jsWhitespaceChars := by
      unfold jsWhitespace at hw
      exact List.mem_of_elem_eq_true hw
    fin_cases hm <;> exact absurd h (by decide)

theorem parseUnsignedJS_digits (l : List Char) (h1 : l ≠ [])
    (h2 : l.all Char.isDigit = true) :
    parseUnsignedJS l = some (digitsToNat l) := by
  obtain ⟨c, cs, rfl⟩ := List.exists_cons_of_ne_nil h1
  simp only [List.all_cons, Bool.and_eq_true] at h2
  have htw : (c :: cs).takeWhile Char.isDigit = c :: cs := by
    apply takeWhile_all
    simp [List.all_cons, h2.1, h2.2]
  cases cs with
  | nil => simp [parseUnsignedJS, htw]
  | cons b bs =>
      have hb : b.isDigit = true := by
        have h3 := h2.2
        simp only [List.all_cons, Bool.and_eq_true] at h3
        exact h3.1
      have hbx : ¬ (b = 'x') := fun he => absurd hb (by rw [he]; decide)
      have hbX : ¬ (b = 'X') := fun he => absurd hb (by rw [he]; decide)
      simp [parseUnsignedJS, htw, hbx, hbX]

theorem jsParseInt_digits (s : String) (h1 : s.data ≠ [])
    (h2 : s.data.all Char.isDigit = true) :
    jsParseInt s = some (digitsToNat s.data : ℤ) := by
  obtain ⟨c, cs, hcs⟩ := List.exists_cons_of_ne_nil h1
  rw [hcs] at h2
  simp only [List.all_cons, Bool.and_eq_true] at h2
  have hws : jsWhitespace c = false := jsWhitespace_of_digit c h2.1
  have hmn : ¬ (c = '-') := fun hEq => absurd h2.1 (by rw [hEq]; decide)
  have hpl : ¬ (c = '+') := fun hEq => absurd h2.1 (by rw [hEq]; decide)
  have hun : parseUnsignedJS (c :: cs) = some (digitsToNat (c :: cs)) := by
    apply parseUnsignedJS_digits
    · simp
    · simp [List.all_cons, h2.1, h2.2]
  unfold jsParseInt
  rw [hcs, List.dropWhile_cons]
  simp [hws, hmn, hpl, hun]

theorem jsParseIntNum_digits (s : String) (h1 : s.data ≠ [])
    (h2 : s.data.all Char.isDigit = true) :
    jsParseIntNum s = JSNum.num ((digitsToNat s.data : ℕ) : ℚ) := by
  unfold jsParseIntNum
  rw [jsParseInt_digits s h1 h2]
  simp

theorem getZone_setZone (st : ReceiverStatus) (zone : ℕ) (z : ZoneStatus) :
    getZone (setZone st zone z) zone = z := by
  unfold getZone setZone
  by_cases h : zone = 0 <;> simp [h]

theorem strStartsWith_self_append (p rest : String) :
    strStartsWith (p ++ rest) p = true := by
  unfold strStartsWith
  simp [strData_append, List.take_left]

theorem strDrop_self_append (p rest : String) :
    strDrop (p ++ rest) p.data.length = rest := by
  unfold strDrop
  rw [strData_append, List.drop_left]

theorem strStartsWith_MAX_of_digits (s : String) (h1 : s.data ≠ [])
    (h2 : s.data.all Char.isDigit = true) :
    strStartsWith s ("MAX") = false := by
  obtain ⟨c, cs, hcs⟩ := List.exists_cons_of_ne_nil h1
  rw [hcs] at h2
  simp only [List.all_cons, Bool.and_eq_true] at h2
  unfold strStartsWith
  rw [hcs]
  apply decide_eq_false
  intro hEq
  have h3 : (c :: cs).take 3 = ('M' :: 'A' :: 'X' :: []) := hEq
  rw [List.take_succ_cons] at h3
  injection h3 with h4 h5
  exact absurd h2.1 (by rw [h4]; decide)

theorem strStartsWith_MAXsp (s : String) :
    strStartsWith (("MAX ") ++ s) ("MAX") = true := rfl

theorem strDrop_MAXsp (s : String) : strDrop (("MAX ") ++ s) 4 = s := rfl

theorem strLen_MAXsp (s : String) : strLen (("MAX ") ++ s) = strLen s + 4 := by
  simp [strLen, strData_append]

/-- C1: an incoming volume parameter made of two digits decodes to the
whole number those digits denote; a three-digit parameter decodes to that
integer divided by ten; the identical rule applies to the `MAX` sub-form;
in particular `"MV35"` yields volume 35, `"MV355"` yields volume 35.5 and
`"MVMAX 855"` yields maxVolume 85.5. -/
theorem c1_volume_tenths_rule :
    (∀ (s : String) (st : ReceiverStatus) (zone : ℕ),
        s.data.all Char.isDigit = true → strLen s = 2 →
        (getZone (onVolumeChanged s zone st).1 zone).volume =
          JSNum.num ((digitsToNat s.data : ℕ) : ℚ)) ∧
    (∀ (s : String) (st : ReceiverStatus) (zone : ℕ),
        s.data.all Char.isDigit = true → strLen s = 3 →
        (getZone (onVolumeChanged s zone st).1 zone).volume =
          JSNum.num (((digitsToNat s.data : ℕ) : ℚ) / 10)) ∧
    (∀ (s : String) (st : ReceiverStatus) (zone : ℕ),
        s.data.all Char.isDigit = true → strLen s = 3 →
        (getZone (onVolumeChanged (("MAX ") ++ s) zone st).1 zone).maxVolume =
          JSNum.num (((digitsToNat s.data : ℕ) : ℚ) / 10)) ∧
    ((getZone (onData initialStatus ("MV35\r")).1 0).volume = JSNum.num 35) ∧
    ((getZone (onData initialStatus ("MV355\r")).1 0).volume =
        JSNum.num ((355 : ℚ) / 10) ∧ (355 : ℚ) / 10 = 35.5) ∧
    ((getZone (onData initialStatus ("MVMAX 855\r")).1 0).maxVolume =
        JSNum.num ((855 : ℚ) / 10) ∧ (855 : ℚ) / 10 = 85.5) := by
  refine ⟨?_, ?_, ?_, ?_, ⟨?_, by norm_num⟩, ⟨?_, by norm_num⟩⟩
  · intro s st zone h2 hlen
    have hne : s.data ≠ [] := by
      intro h0
      rw [strLen, h0] at hlen
      simp at hlen
    have hmax := strStartsWith_MAX_of_digits s hne h2
    have hp := jsParseIntNum_digits s hne h2
    simp [onVolumeChanged, hmax, hp, getZone_setZone, hlen]
  · intro s st zone h2 hlen
    have hne : s.data ≠ [] := by
      intro h0
      rw [strLen, h0] at hlen
      simp at hlen
    have hmax := strStartsWith_MAX_of_digits s hne h2
    have hp := jsParseIntNum_digits s hne h2
    simp [onVolumeChanged, hmax, hp, getZone_setZone, hlen, jsDivTen, qDivTen_eq]
  · intro s st zone h2 hlen
    have hne : s.data ≠ [] := by
      intro h0
      rw [strLen, h0] at hlen
      simp at hlen
    have hp := jsParseIntNum_digits s hne h2
    simp [onVolumeChanged, strStartsWith_MAXsp, strDrop_MAXsp, hp,
          getZone_setZone, hlen, jsDivTen, qDivTen_eq]
  · decide
  · have h5 : (getZone (onData initialStatus ("MV355\r")).1 0).volume =
        JSNum.num (qDivTen 355) := by decide
    rw [h5, qDivTen_eq]
  · have h6 : (getZone (onData initialStatus ("MVMAX 855\r")).1 0).maxVolume =
        JSNum.num (qDivTen 855) := by decide
    rw [h6, qDivTen_eq]

theorem c1_volume_tenths_rule_witness :
    ((("35").data.all Char.isDigit = true ∧ strLen ("35") = 2) ∧
     (("355").data.all Char.isDigit = true ∧ strLen ("355") = 3)) ∧
    ((getZone (onVolumeChanged ("35") 0 initialStatus).1 0).volume =
        JSNum.num ((digitsToNat ("35").data : ℕ) : ℚ)) ∧
    ((getZone (onVolumeChanged ("355") 0 initialStatus).1 0).volume =
        JSNum.num (((digitsToNat ("355").data : ℕ) : ℚ) / 10)) ∧
    ((getZone (onVolumeChanged (("MAX ") ++ ("855")) 0 initialStatus).1 0).maxVolume =
        JSNum.num (((digitsToNat ("855").data : ℕ) : ℚ) / 10)) :=
  ⟨⟨⟨by decide, by decide⟩, ⟨by decide, by decide⟩⟩,
   c1_volume_tenths_rule.1 ("35") initialStatus 0 (by decide) (by decide),
   c1_volume_tenths_rule.2.1 ("355") initialStatus 0 (by decide) (by decide),
   c1_volume_tenths_rule.2.2.1 ("855") initialStatus 0 (by decide) (by decide)⟩

theorem jsnum_beq_undef (q : ℚ) : (JSNum.num q == JSNum.undef) = false := rfl

/-- C4: with its preconditions satisfied, `changeVolume` encodes `UP` for a
delta of exactly +1 and `DOWN` for exactly −1; any other integer delta is
encoded as the absolute target `round(volume + delta)` clamped into
`[0, maxVolume]`, zero-padded to two digits, so the encoded target lies in
`[0, maxVolume]`. -/
theorem c4_relative_volume_clamped (telnet : Bool) (d : ℤ) (q m : ℚ) (zone : ℕ)
    (st : ReceiverStatus)
    (ht : telnet = true) (hp : (getZone st zone).power = true)
    (hv : (getZone st zone).volume = JSNum.num q)
    (hm : (getZone st zone).maxVolume = JSNum.num m)
    (hm0 : 0 ≤ m) :
    (d = 1 → changeVolume telnet (d : ℚ) zone st =
        some (volHead zone ++ ("UP") ++ ("\r"))) ∧
    (d = -1 → changeVolume telnet (d : ℚ) zone st =
        some (volHead zone ++ ("DOWN") ++ ("\r"))) ∧
    (d ≠ 1 → d ≠ -1 →
      changeVolume telnet (d : ℚ) zone st =
        some (volHead zone ++
          padStart2 (ratToStr (max 0 (min m ((⌊q + (d : ℚ) + 1 / 2⌋ : ℤ) : ℚ)))) ++
          ("\r")) ∧
      0 ≤ max 0 (min m ((⌊q + (d : ℚ) + 1 / 2⌋ : ℤ) : ℚ)) ∧
      max 0 (min m ((⌊q + (d : ℚ) + 1 / 2⌋ : ℤ) : ℚ)) ≤ m) := by
  refine ⟨?_, ?_, ?_⟩
  · intro h1
    subst h1
    simp [changeVolume, ht, hp, hv, hm, jsnum_beq_undef]
  · intro h1
    subst h1
    norm_num [changeVolume, ht, hp, hv, hm, jsnum_beq_undef]
  · intro h1 h2
    have hq1 : ¬ ((d : ℚ) = 1) := by exact_mod_cast h1
    have hq2 : ¬ ((d : ℚ) = -1) := by exact_mod_cast h2
    refine ⟨?_, le_max_left 0 _, max_le hm0 (min_le_left _ _)⟩
    simp [changeVolume, ht, hp, hv, hm, jsnum_beq_undef, hq1, hq2,
          jsAdd, jsRound, jsMin, jsMax, jsNumToStr, jsRoundQ_eq, qAdd_eq]

/-- A receiver status with main-zone power on (used by witnesses). -/
def poweredSt : ReceiverStatus :=
  { initialStatus with zone0 := { initialZone0 with power := true } }

theorem c4_relative_volume_clamped_witness :
    (true = true ∧ (getZone poweredSt 0).power = true ∧
     (getZone poweredSt 0).volume = JSNum.num 0 ∧
     (getZone poweredSt 0).maxVolume = JSNum.num 85 ∧ (0 : ℚ) ≤ 85 ∧
     (5 : ℤ) ≠ 1 ∧ (5 : ℤ) ≠ -1) ∧
    (changeVolume true ((5 : ℤ) : ℚ) 0 poweredSt =
       some (volHead 0 ++
         padStart2 (ratToStr (max 0 (min 85 ((⌊(0 : ℚ) + ((5 : ℤ) : ℚ) + 1 / 2⌋ : ℤ) : ℚ)))) ++
         ("\r")) ∧
     0 ≤ max 0 (min 85 ((⌊(0 : ℚ) + ((5 : ℤ) : ℚ) + 1 / 2⌋ : ℤ) : ℚ)) ∧
     max 0 (min 85 ((⌊(0 : ℚ) + ((5 : ℤ) : ℚ) + 1 / 2⌋ : ℤ) : ℚ)) ≤ 85) :=
  ⟨⟨rfl, by decide, by decide, by decide, by decide, by decide, by decide⟩,
   (c4_relative_volume_clamped true 5 0 85 0 poweredSt rfl (by decide) (by decide)
      (by decide) (by decide)).2.2 (by decide) (by decide)⟩

/-- C5 counterexample: the decoded mute value of `"MUOFF"` equals the
already-held value (`muted` starts out false), yet feeding two identical
`"MUOFF"` lines emits two `muteChanged` events, not one — emission is not
suppressed for unchanged mute values. -/
theorem c5_counterexample_two_mute_events :
    (getZone initialStatus 0).muted = false ∧
    (onData initialStatus ("MUOFF\rMUOFF\r")).2 =
      [REvent.muteChanged 0, REvent.muteChanged 0] ∧
    ¬ ((onData initialStatus ("MUOFF\rMUOFF\r")).2.count (REvent.muteChanged 0) = 1) := by
  decide

/-- C5 (amended): emission suppression applies only to power — a power
decode emits `powerChanged` exactly when the decoded value differs from
the held one, so two identical `"PWON"` lines emit exactly one event.  No
other handler suppresses: a mute or source decode emits its event on every
decode even when the value is unchanged (two identical `"MUOFF"` lines
emit two `muteChanged` events), a non-`MAX` volume decode always emits
`volumeChanged`, a `MAX` volume decode emits no event at all, and a
dynamic-volume decode emits exactly when the value is one of the four
valid tokens, regardless of the held value. -/
theorem c5_power_suppression_only :
    ((onData initialStatus ("PWON\rPWON\r")).2 = [REvent.powerChanged 0]) ∧
    (∀ (p : String) (zone : ℕ) (st : ReceiverStatus),
      (onPowerChanged p zone st).2 =
        if (p == ("ON")) = (getZone st zone).power then []
        else [REvent.powerChanged zone]) ∧
    (∀ (p : String) (zone : ℕ) (st : ReceiverStatus),
      (onMuteChanged p zone st).2 = [REvent.muteChanged zone]) ∧
    (∀ (p : String) (zone : ℕ) (st : ReceiverStatus),
      (onSourceChanged p zone st).2 = [REvent.sourceChanged zone]) ∧
    (∀ (p : String) (zone : ℕ) (st : ReceiverStatus),
      (onVolumeChanged p zone st).2 =
        if strStartsWith p ("MAX") then [] else [REvent.volumeChanged zone]) ∧
    (∀ (p : String) (st : ReceiverStatus),
      (onDynamicVolumeChanged p st).2 =
        if (["HEV", "MED", "LIT", "OFF"] : List String).contains p then
          [REvent.dynamicVolumeChanged 0]
        else []) ∧
    ((onData initialStatus ("MUOFF\rMUOFF\r")).2 =
      [REvent.muteChanged 0, REvent.muteChanged 0]) := by
  refine ⟨by decide, ?_, ?_, ?_, ?_, ?_, by decide⟩
  · intro p zone st
    by_cases h : (p == ("ON")) = (getZone st zone).power
    · simp [onPowerChanged, h]
    · simp [onPowerChanged, h]
  · intro p zone st
    simp [onMuteChanged]
  · intro p zone st
    simp [onSourceChanged]
  · intro p zone st
    by_cases h : strStartsWith p ("MAX") = true
    · simp [onVolumeChanged, h]
    · simp [onVolumeChanged, h]
  · intro p st
    by_cases h : (["HEV", "MED", "LIT", "OFF"] : List String).contains p = true
    · rw [onDynamicVolumeChanged, if_pos h, if_pos h]
    · rw [onDynamicVolumeChanged, if_neg h, if_neg h]

/-- C6 counterexample: a connection that has decoded only `"PWON"` (the
device never reported its mute state) still accepts an argument-less
`setMute` and sends `"MUON"` — the negation of the initial placeholder —
instead of returning false. -/
theorem c6_counterexample_guessed_toggle :
    setMute true none 0 (onData initialStatus ("PWON\r")).1 = some ("MUON\r") := by
  decide

/-- C6 (amended): an argument-less `setMute`/`setPower` sends the logical
NOT of the currently held boolean field (which is initialised, never
unknown); `setMute` returns false exactly when the socket is absent or the
zone's power is off — it never refuses on account of an unreported mute
state. -/
theorem c6_toggle_uses_held_state (telnet : Bool) (zone : ℕ) (st : ReceiverStatus) :
    (setMute telnet none zone st = none ↔
      (telnet = false ∨ (getZone st zone).power = false)) ∧
    (telnet = true → (getZone st zone).power = true →
      setMute telnet none zone st =
        some (muteHead zone ++
          (if (getZone st zone).muted then ("OFF") else ("ON")) ++ ("\r"))) ∧
    (telnet = true →
      setPower telnet none zone st =
        some (powHead zone ++
          (if (getZone st zone).power then standbyToken zone else ("ON")) ++ ("\r"))) := by
  refine ⟨?_, ?_, ?_⟩
  · cases telnet <;> cases hp : (getZone st zone).power <;> simp [setMute, hp]
  · intro ht hp
    cases hm : (getZone st zone).muted <;> simp [setMute, ht, hp, hm]
  · intro ht
    cases hp : (getZone st zone).power <;> simp [setPower, ht, hp]

theorem c6_toggle_uses_held_state_witness :
    (true = true ∧ (getZone poweredSt 0).power = true) ∧
    setMute true none 0 poweredSt =
      some (muteHead 0 ++
        (if (getZone poweredSt 0).muted then ("OFF") else ("ON")) ++ ("\r")) ∧
    setPower true none 0 poweredSt =
      some (powHead 0 ++
        (if (getZone poweredSt 0).power then standbyToken 0 else ("ON")) ++ ("\r")) :=
  ⟨⟨rfl, by decide⟩,
   (c6_toggle_uses_held_state true 0 poweredSt).2.1 rfl (by decide),
   (c6_toggle_uses_held_state true 0 poweredSt).2.2 rfl⟩

/-- C7: feeding `"PWON\rMV45\rMUOFF\r"` to a fresh connection leaves zone 0
with power on, volume 45, unmuted, and fires exactly powerChanged,
volumeChanged, muteChanged in that order; and every non-`MAX` volume decode
clears the zone's muted flag while emitting `volumeChanged`. -/
theorem c7_end_to_end_and_mute_clear :
    ((getZone (onData initialStatus ("PWON\rMV45\rMUOFF\r")).1 0).power = true ∧
     (getZone (onData initialStatus ("PWON\rMV45\rMUOFF\r")).1 0).volume =
       JSNum.num 45 ∧
     (getZone (onData initialStatus ("PWON\rMV45\rMUOFF\r")).1 0).muted = false ∧
     (onData initialStatus ("PWON\rMV45\rMUOFF\r")).2 =
       [REvent.powerChanged 0, REvent.volumeChanged 0, REvent.muteChanged 0]) ∧
    (∀ (p : String) (zone : ℕ) (st : ReceiverStatus),
      strStartsWith p ("MAX") = false →
      (getZone (onVolumeChanged p zone st).1 zone).muted = false ∧
      (onVolumeChanged p zone st).2 = [REvent.volumeChanged zone]) := by
  refine ⟨by decide, ?_⟩
  intro p zone st h
  simp [onVolumeChanged, h, getZone_setZone]

theorem c7_end_to_end_and_mute_clear_witness :
    (strStartsWith ("45") ("MAX") = false) ∧
    ((getZone (onVolumeChanged ("45") 0 initialStatus).1 0).muted = false ∧
     (onVolumeChanged ("45") 0 initialStatus).2 = [REvent.volumeChanged 0]) :=
  ⟨by decide, c7_end_to_end_and_mute_clear.2 ("45") 0 initialStatus (by decide)⟩

/-- C8: `changeVolumeAbsolute` returns failure exactly when the socket is
absent or the zone's power is off; otherwise it succeeds and encodes the
requested value two-digit zero-padded with no clamping — the encoding does
not depend on `maxVolume` at all. -/
theorem c8_absolute_reject_no_clamp (telnet : Bool) (value : ℚ) (zone : ℕ)
    (st : ReceiverStatus) :
    (changeVolumeAbsolute telnet value zone st = none ↔
      (telnet = false ∨ (getZone st zone).power = false)) ∧
    (telnet = true → (getZone st zone).power = true →
      changeVolumeAbsolute telnet value zone st =
        some (volHead zone ++ padStart2 (ratToStr value) ++ ("\r"))) ∧
    (∀ m : JSNum, changeVolumeAbsolute telnet value zone
        (setZone st zone { getZone st zone with maxVolume := m }) =
      changeVolumeAbsolute telnet value zone st) := by
  refine ⟨?_, ?_, ?_⟩
  · cases telnet <;> cases hp : (getZone st zone).power <;>
      simp [changeVolumeAbsolute, hp]
  · intro ht hp
    simp [changeVolumeAbsolute, ht, hp]
  · intro m
    simp [changeVolumeAbsolute, getZone_setZone]

theorem c8_absolute_reject_no_clamp_witness :
    (true = true ∧ (getZone poweredSt 0).power = true) ∧
    changeVolumeAbsolute true 99 0 poweredSt =
      some (volHead 0 ++ padStart2 (ratToStr 99) ++ ("\r")) :=
  ⟨⟨rfl, by decide⟩,
   (c8_absolute_reject_no_clamp true 99 0 poweredSt).2.1 rfl (by decide)⟩

/-- C10 counterexample: the line `"Z2toString"` is decoded by the program
as a zone-1 source change, because the JavaScript `in` operator finds the
inherited `Object.prototype` property `"toString"` on the sources map,
even though `"toString"` is not one of the fixed source tokens — so the
classification does not fall through to the two-letter command code as the
claim requires. -/
theorem c10_counterexample_proto_key :
    parseLine ("Z2toString") =
      { command := "SI", parameter := "toString", zone := 1 } ∧
    sourceKeys.contains ("toString") = false := by
  decide

/-- The zone-1 classification rule as amended claim C10 words it, applied
to the remainder of the line after the stripped `"Z2"` prefix: the source
branch is taken when the whole remainder is one of the fixed source tokens
or one of the property names inherited from `Object.prototype`. -/
def z2SpecClassify (rest : String) : ParsedLine :=
  if jsParseIntPos (strTake rest 2) then
    { command := "MV", parameter := strDrop rest 2, zone := 1 }
  else if strStartsWith rest ("ON") || strStartsWith rest ("OFF") then
    { command := "PW", parameter := rest, zone := 1 }
  else if sourceKeys.contains rest || objectProtoKeys.contains rest then
    { command := "SI", parameter := rest, zone := 1 }
  else
    { command := strTake rest 2, parameter := strDrop rest 2, zone := 1 }

/-- C10 (amended): every line beginning with `"Z2"` is routed to zone 1
and its remainder is classified without reading a two-letter command code
first, in the claimed priority order — except that the source branch fires
when the remainder is one of the fixed source tokens **or** one of the
`Object.prototype` property names the JavaScript `in` operator also finds;
only otherwise are the first two characters taken as the command code. -/
theorem c10_z2_classification (rest : String) :
    parseLine (("Z2") ++ rest) = z2SpecClassify rest := by
  have h1 : strStartsWith (("Z2") ++ rest) ("Z2") = true :=
    strStartsWith_self_append ("Z2") rest
  have h2 : strDrop (("Z2") ++ rest) 2 = rest :=
    strDrop_self_append ("Z2") rest
  simp [parseLine, z2SpecClassify, jsInSources, h1, h2]

/-- C2 counterexample: a spontaneous close schedules a reconnect timer;
the caller then invokes `disconnect()`; the already-scheduled timer still
fires and runs `connect()`, so the instance self-reconnects after
`disconnect()`. -/
theorem c2_counterexample_timer_survives_disconnect :
    (onCloseStep initialConn).2 = some 1000 ∧
    (disconnectStep (onCloseStep initialConn).1).telnet = false ∧
    (fireReconnectTimer (disconnectStep (onCloseStep initialConn).1)).telnet = true := by
  decide

/-- C2 (amended): each of the first 10 closes of a failing connection
schedules a reconnect after the fixed 1000 ms delay and increments the
counter (capped at 10); the 11th close schedules nothing and the last
error's status message stays exposed; an `ENOTFOUND` error tears the
connection down at once, leaving a terminal message, and the following
close schedules no retry; after `disconnect()` no close schedules a new
retry — but a reconnect timer that was already pending still fires and
reconnects. -/
theorem c2_reconnect_policy (code msg host : String) (h : code ≠ "ENOTFOUND") :
    (∀ n : ℕ, (failTrace code msg host n).2 =
       if n < 10 then some 1000 else none) ∧
    (∀ n : ℕ, (failTrace code msg host n).1.reconnectCount = min (n + 1) 10) ∧
    ((failTrace code msg host 10).1.statusMsg = connErrMsg code msg) ∧
    (∀ s : ConnState, (onErrorStep ("ENOTFOUND") msg host s).telnet = false ∧
       (onErrorStep ("ENOTFOUND") msg host s).statusMsg = "Host not found: " ++ host ∧
       (onCloseStep (onErrorStep ("ENOTFOUND") msg host s)).2 = none) ∧
    (∀ s : ConnState, (onCloseStep (disconnectStep s)).2 = none) ∧
    (∀ s : ConnState, 0 < s.pendingReconnect →
       (fireReconnectTimer (disconnectStep s)).telnet = true) := by
  refine ⟨?_, ?_, ?_, ?_, ?_, ?_⟩
  · intro n
    simp [failTrace_spec code msg host h n, reconnectDelayMs]
  · intro n
    simp [failTrace_spec code msg host h n]
  · simp [failTrace_spec code msg host h 10]
  · intro s
    refine ⟨?_, ?_, ?_⟩ <;> simp [onErrorStep, disconnectStep, onCloseStep]
  · intro s
    simp [onCloseStep, disconnectStep]
  · intro s hs
    simp [fireReconnectTimer, disconnectStep, connectStep, hs]

theorem c2_reconnect_policy_witness :
    (("ECONNREFUSED" : String) ≠ "ENOTFOUND" ∧
     0 < (ConnState.mk true 3 ("x") 1).pendingReconnect) ∧
    (failTrace ("ECONNREFUSED") ("connect failed") ("10.0.0.9") 10).2 = none ∧
    (fireReconnectTimer (disconnectStep (ConnState.mk true 3 ("x") 1))).telnet = true := by
  have h := c2_reconnect_policy ("ECONNREFUSED") ("connect failed") ("10.0.0.9")
    (by decide)
  refine ⟨⟨by decide, by decide⟩, ?_, h.2.2.2.2.2 _ (by decide)⟩
  have h1 := h.1 10
  simpa using h1

/-- C3: whenever a second `searchForReceivers` call arrives while a scan is
in flight (after any number of completed rounds) the scanning flag is still
set, so the second caller takes the wait branch: it starts no scan of its
own, both callers return the identical snapshot, and the total number of
multicast datagrams sent is exactly one scan's worth — rounds times usable
interfaces. -/
theorem c3_single_flight_scan (ifaces : List NetAddress)
    (rounds : List (List (SSDPResponse × ℕ))) (j : ℕ) (s0 : TrackerState) :
    searchJoins (midScanState ifaces rounds j s0) = true ∧
    (overlappedSearch ifaces rounds j s0).1 =
      (overlappedSearch ifaces rounds j s0).2.1 ∧
    (overlappedSearch ifaces rounds j s0).2.2.sendCount =
      s0.sendCount + rounds.length * usableIfaceCount ifaces := by
  have hj : searchJoins (midScanState ifaces rounds j s0) = true := by
    simp [searchJoins, midScanState, runScanRounds_isScanning]
  refine ⟨hj, ?_, ?_⟩
  · simp [overlappedSearch, hj, searchScan]
  · simp [overlappedSearch, hj, searchScan, runScanRounds_sendCount]

/-- The cache before the repeat sighting: the receiver is known and its
friendly name has already been fetched. -/
def c9CachedList : ReceiverList :=
  [("AB12", { currentIP := "10.0.0.5", lastSeen := 50,
              descriptionURL := some ("http://10.0.0.5/upnp.xml"),
              name := some ("Denon AVR-X1600H") })]

/-- A repeat SSDP response from the same receiver. -/
def c9Response : SSDPResponse :=
  { headers := [("USN", "uuid:AB12::urn:schemas-denon-com:device:ACT-Denon:1"),
                ("LOCATION", "http://10.0.0.5/upnp.xml")],
    address := "10.0.0.5" }

/-- C9: on a repeat sighting of a cached, already-named receiver the code
replaces the entry with a freshly built record that has no `name`, so the
cached friendly name is dropped, and — because the fresh record never has a
name — the description fetch is issued again; if that fetch then fails the
name is gone and the description URL is deleted too.  The entry itself is
refreshed in place (the cache still holds a single entry for the
identity). -/
theorem c9_cached_name_dropped_on_resighting :
    (onResponse c9Response 100 c9CachedList).2 = true ∧
    (onResponse c9Response 100 c9CachedList).1 =
      [("AB12", { currentIP := "10.0.0.5", lastSeen := 100,
                  descriptionURL := some ("http://10.0.0.5/upnp.xml"),
                  name := none })] ∧
    getEntry (updateNameFromDescriptionURL FetchOutcome.fetchFail ("AB12")
        (onResponse c9Response 100 c9CachedList).1) ("AB12") =
      some { currentIP := "10.0.0.5", lastSeen := 100,
             descriptionURL := none, name := none } := by
  decide
